import Mathlib

/-!
Verification of klein's session procurement (`src/klein/_session.py`).

Shallow embedding: byte strings are `List Nat`; the Twisted request object
becomes an explicit `Request` record; the asynchronous session store becomes
a record of pure functions, and every call the procurer makes to it is
logged in a `trace` so that "the store was (not) called" is provable.
`procureSession` returns a `ProcureOutcome`: the result (session / none /
raised error), the store-call trace, the cookies written via `addCookie`,
and the `ISession` component cached on the request via `setComponent`.
-/

/-- Raw byte strings (Python `bytes`): each entry is one byte. -/
abbrev Bytes := List Nat

/-- Decoded text (Python `str` after `.decode('ascii')`). -/
abbrev Str := List Nat

/-- Encode a Lean string as its code points; used only to spell out the
byte-string literals appearing in the source (`b"GET"`, default names). -/
def strToBytes (s : String) : Bytes := s.data.map Char.toNat

/-- `bytes.decode('ascii')`: succeeds (identity on code points) iff every
byte is below 128, otherwise raises `UnicodeDecodeError`. -/
def asciiDecode (bs : Bytes) : Option Str :=
  if bs.all (fun b => b < 128) then some bs else none

/-- `SessionMechanism` from klein's interfaces: how the identifier was
transmitted. -/
inductive SessionMechanism where
  | Header
  | Cookie
deriving DecidableEq, Repr

/-- The slice of `ISession` that `procureSession` consumes: the opaque
`identifier` text. -/
structure Session where
  identifier : Str
deriving DecidableEq, Repr

/-- Result of `ISessionStore.loadSession`: a session, or the
`NoSuchSession` exception. -/
inductive LoadResult where
  | ok (s : Session)
  | noSuchSession
deriving DecidableEq, Repr

/-- The session store collaborator (`ISessionStore`), as pure functions;
`sentInsecurely` returns nothing so only its invocation (in the trace)
matters. -/
structure SessionStore where
  loadSession : Str → Bool → SessionMechanism → LoadResult
  newSession : Bool → SessionMechanism → Session

/-- One observed call on the session store. -/
inductive StoreCall where
  | sentInsecurely (tokens : List Bytes)
  | loadSession (sessionID : Str) (sentSecurely : Bool) (mechanism : SessionMechanism)
  | newSession (sentSecurely : Bool) (mechanism : SessionMechanism)
deriving DecidableEq, Repr

/-- The request/response transport surface `procureSession` reads and
writes: raw headers per name, cookies, method, whether response headers
were already sent, and the per-request `ISession` component slot. -/
structure Request where
  isSecure : Bool
  headers : Bytes → List Bytes
  cookies : Bytes → Option Bytes
  method : Bytes
  startedWriting : Bool
  component : Option Session

/-- Twisted's `request.getHeader`: the last raw value sent under a name. -/
def Request.getHeader (r : Request) (name : Bytes) : Option Bytes :=
  (r.headers name).getLast?

/-- Twisted's `request.getCookie`. -/
def Request.getCookie (r : Request) (name : Bytes) : Option Bytes :=
  r.cookies name

/-- `request.setComponent(ISession, session)`. -/
def Request.setComponent (r : Request) (s : Option Session) : Request :=
  { r with component := s }

/-- One `request.addCookie(...)` call, with the exact keyword arguments the
source passes. -/
structure SetCookie where
  name : Bytes
  value : Str
  max_age : Nat
  domain : Option Bytes
  path : Bytes
  secure : Bool
  httpOnly : Bool
deriving DecidableEq, Repr

/-- The exceptions `procureSession` can raise: `NoSuchSession` re-raised
from the store, `TooLateForCookies`, and the `UnicodeDecodeError` from
`sessionID.decode('ascii')`. -/
inductive ProcureError where
  | noSuchSession
  | tooLateForCookies
  | decodeError
deriving DecidableEq, Repr

/-- Return value of `procureSession`: a session, `None`, or a raised
exception. -/
inductive ProcResult where
  | ok (s : Option Session)
  | err (e : ProcureError)
deriving DecidableEq, Repr

/-- Everything observable about one `procureSession` call. -/
structure ProcureOutcome where
  result : ProcResult
  trace : List StoreCall
  cookiesSet : List SetCookie
  cacheUpdate : Option Session
deriving DecidableEq, Repr

/-- Prepend already-performed store calls to an outcome's trace. -/
def ProcureOutcome.withTrace (t : List StoreCall) (o : ProcureOutcome) : ProcureOutcome :=
  { o with trace := t ++ o.trace }

/-- The `SessionProcurer` configuration (its `attr.ib` fields; `attrs`
generates a plain constructor for them with no validators). -/
structure SessionProcurer where
  store : SessionStore
  maxAge : Nat
  secureCookie : Bytes
  insecureCookie : Bytes
  cookieDomain : Option Bytes
  cookiePath : Bytes
  secureTokenHeader : Bytes
  insecureTokenHeader : Bytes
  setCookieOnGET : Bool

/-- `b"GET"`. -/
def GETmethod : Bytes := strToBytes ("GET")

/-- The token-harvest expression from the insecure-transport branch:
`sum([getRawHeaders(h, []) for h in [secure, insecure]], []) +
[it for it in [getCookie(c) for c in [secure, insecure]] if it]`
(the `if it` drops both absent (`None`) and empty (`b""`) cookies). -/
def allPossibleSentTokens (p : SessionProcurer) (request : Request) : List Bytes :=
  request.headers p.secureTokenHeader ++ request.headers p.insecureTokenHeader
    ++ (([request.getCookie p.secureCookie,
          request.getCookie p.insecureCookie].filterMap id).filter
        (fun it => !it.isEmpty))

/-- The tail of `procureSession` shared by the load-success and creation
paths: the cookie-issuance block (`if sessionID != session.identifier and
request.method == b'GET' and self._setCookieOnGET: ...`) followed by the
request-scoped caching block (`if sentSecurely or not request.isSecure()`)
and `returnValue(session)`. `sessionID` is the (decoded) identifier
presented by the request, `none` when absent or cleared. -/
def issueAndCache (p : SessionProcurer) (request : Request) (cookieName : Bytes)
    (sentSecurely : Bool) (sessionID : Option Str) (session : Session) : ProcureOutcome :=
  let cacheUpdate : Option Session :=
    if sentSecurely || !request.isSecure then some session else none
  if sessionID ≠ some session.identifier ∧ request.method = GETmethod ∧
      p.setCookieOnGET = true then
    if request.startedWriting then
      { result := .err .tooLateForCookies, trace := [], cookiesSet := [], cacheUpdate := none }
    else
      { result := .ok (some session),
        trace := [],
        cookiesSet := [{ name := cookieName, value := session.identifier,
                         max_age := p.maxAge, domain := p.cookieDomain,
                         path := p.cookiePath, secure := sentSecurely,
                         httpOnly := true }],
        cacheUpdate := cacheUpdate }
  else
    { result := .ok (some session), trace := [], cookiesSet := [],
      cacheUpdate := cacheUpdate }

/-- The `if sessionID is None:` creation block: refuse unless the method is
GET and `setCookieOnGET` allows it, raise `TooLateForCookies` once headers
were sent, otherwise `newSession(sentSecurely, mechanism)`; then fall
through to cookie issuance and caching with `sessionID = None`. -/
def creationPhase (p : SessionProcurer) (request : Request) (cookieName : Bytes)
    (sentSecurely : Bool) (mechanism : SessionMechanism) : ProcureOutcome :=
  if request.method ≠ GETmethod ∨ p.setCookieOnGET = false then
    { result := .ok none, trace := [], cookiesSet := [], cacheUpdate := none }
  else if request.startedWriting then
    { result := .err .tooLateForCookies, trace := [], cookiesSet := [], cacheUpdate := none }
  else
    let session := p.store.newSession sentSecurely mechanism
    (issueAndCache p request cookieName sentSecurely none session).withTrace
      [StoreCall.newSession sentSecurely mechanism]

/-- The variables assigned by the transport-classification `if` at the top
of `procureSession`: the selected token header and cookie names, the
`sentSecurely` flag, and the store calls already performed by that block
(the `sentInsecurely` disclosure report, on the insecure branch). -/
structure TransportChoice where
  tokenHeader : Bytes
  cookieName : Bytes
  sentSecurely : Bool
  preTrace : List StoreCall
deriving DecidableEq, Repr

/-- The transport-classification block of `procureSession`:
`if request.isSecure(): if forceInsecure: ... else: ... else: ...`, with
the insecure branch harvesting `allPossibleSentTokens` and reporting them
via `store.sentInsecurely`. -/
def transportClassification (p : SessionProcurer) (request : Request)
    (forceInsecure : Bool) : TransportChoice :=
  if request.isSecure then
    if forceInsecure then
      { tokenHeader := p.insecureTokenHeader, cookieName := p.insecureCookie,
        sentSecurely := false, preTrace := [] }
    else
      { tokenHeader := p.secureTokenHeader, cookieName := p.secureCookie,
        sentSecurely := true, preTrace := [] }
  else
    { tokenHeader := p.insecureTokenHeader, cookieName := p.insecureCookie,
      sentSecurely := false,
      preTrace := [StoreCall.sentInsecurely (allPossibleSentTokens p request)] }

/-- The identifier-extraction block:
`sessionID = request.getHeader(tokenHeader)`, mechanism Header when
present; otherwise mechanism Cookie and `sessionID =
request.getCookie(cookieName)`. -/
def extractIdentifier (request : Request) (tokenHeader cookieName : Bytes) :
    SessionMechanism × Option Bytes :=
  match request.getHeader tokenHeader with
  | some v => (SessionMechanism.Header, some v)
  | none => (SessionMechanism.Cookie, request.getCookie cookieName)

/-- The `if sessionID is not None:` lookup block, given the raw transmitted
identifier: `sessionID.decode('ascii')` (its `UnicodeDecodeError`
propagates — the `try` only guards the `loadSession` call); then
`loadSession(sessionID, sentSecurely, mechanism)`; `NoSuchSession` is
re-raised when the mechanism is Header, and clears `sessionID` (fall
through to creation) when it is Cookie; a loaded session falls through to
cookie issuance. -/
def lookupPhase (p : SessionProcurer) (request : Request) (cookieName : Bytes)
    (sentSecurely : Bool) (mechanism : SessionMechanism) (raw : Bytes) : ProcureOutcome :=
  match asciiDecode raw with
  | none =>
    { result := .err .decodeError, trace := [], cookiesSet := [], cacheUpdate := none }
  | some sessionID =>
    match p.store.loadSession sessionID sentSecurely mechanism with
    | .ok session =>
      (issueAndCache p request cookieName sentSecurely (some sessionID) session).withTrace
        [StoreCall.loadSession sessionID sentSecurely mechanism]
    | .noSuchSession =>
      if mechanism = SessionMechanism.Header then
        { result := .err .noSuchSession,
          trace := [StoreCall.loadSession sessionID sentSecurely mechanism],
          cookiesSet := [], cacheUpdate := none }
      else
        (creationPhase p request cookieName sentSecurely mechanism).withTrace
          [StoreCall.loadSession sessionID sentSecurely mechanism]

/-- `procureSession` past the request-scoped cache check: transport
classification, identifier extraction, then the lookup or creation
pipeline. -/
def procureUncached (p : SessionProcurer) (request : Request)
    (forceInsecure : Bool) : ProcureOutcome :=
  let tc := transportClassification p request forceInsecure
  match extractIdentifier request tc.tokenHeader tc.cookieName with
  | (mechanism, none) =>
    (creationPhase p request tc.cookieName tc.sentSecurely mechanism).withTrace
      tc.preTrace
  | (mechanism, some raw) =>
    (lookupPhase p request tc.cookieName tc.sentSecurely mechanism raw).withTrace
      tc.preTrace

/-- `SessionProcurer.procureSession(request, forceInsecure)`, step for step:
request-scoped cache check (early return of the `ISession` component);
transport classification (with the `sentInsecurely` disclosure report on
the insecure branch); identifier extraction (header first, else cookie);
ASCII decode; `loadSession` with `NoSuchSession` re-raised for Header but
swallowed for Cookie; creation; cookie issuance; request-scoped caching. -/
def SessionProcurer.procureSession (p : SessionProcurer) (request : Request)
    (forceInsecure : Bool) : ProcureOutcome :=
  match request.component with
  | some alreadyProcured =>
    { result := .ok (some alreadyProcured), trace := [], cookiesSet := [],
      cacheUpdate := none }
  | none => procureUncached p request forceInsecure

/-- The `attr.ib` default values of `SessionProcurer`. -/
def defaultMaxAge : Nat := 3600

/-- Default secure cookie name `b"Klein-Secure-Session"`. -/
def defaultSecureCookie : Bytes := strToBytes ("Klein-Secure-Session")

/-- Default insecure cookie name `b"Klein-INSECURE-Session"`. -/
def defaultInsecureCookie : Bytes := strToBytes ("Klein-INSECURE-Session")

/-- Default cookie path `b"/"`. -/
def defaultCookiePath : Bytes := strToBytes ("/")

/-- Default secure token header `b"X-Auth-Token"`. -/
def defaultSecureTokenHeader : Bytes := strToBytes ("X-Auth-Token")

/-- Default insecure token header `b"X-INSECURE-Auth-Token"`. -/
def defaultInsecureTokenHeader : Bytes := strToBytes ("X-INSECURE-Auth-Token")

/-- The constructor `attrs` generates for `SessionProcurer(store)` with all
defaults: it assigns the fields and performs no validation of any kind (the
source declares no `attr.ib` validator). -/
def mkSessionProcurer (store : SessionStore) : SessionProcurer :=
  { store := store, maxAge := defaultMaxAge,
    secureCookie := defaultSecureCookie,
    insecureCookie := defaultInsecureCookie,
    cookieDomain := none, cookiePath := defaultCookiePath,
    secureTokenHeader := defaultSecureTokenHeader,
    insecureTokenHeader := defaultInsecureTokenHeader,
    setCookieOnGET := true }

/-- An interface (capability identifier), modelled by its qualified name
(the string `qual(interface)` produces). -/
abbrev IfaceName := String

/-- The slice of `ISession` that `Authorization.injectValue` consumes: the
`authorize` surface, a mapping from requested capability identifiers to
providers (`.get` on the returned dict is the second argument). -/
structure AuthSession (α : Type) where
  authorize : List IfaceName → IfaceName → Option α

/-- `twisted.web.http.UNAUTHORIZED`. -/
def UNAUTHORIZED : Nat := 401

/-- An HTTP response as `AuthorizationDenied.render` produces it: the
response code it sets and the returned body (a UTF-8 string, standing for
its encoded bytes). -/
structure DenialResponse where
  status : Nat
  body : String
deriving DecidableEq, Repr

/-- `AuthorizationDenied.render`: set the response code to `UNAUTHORIZED`
and return `"<qual(interface)> DENIED"` as the body. -/
def AuthorizationDenied.render (interface : IfaceName) : DenialResponse :=
  { status := UNAUTHORIZED, body := interface ++ " DENIED" }

/-- Outcome of `Authorization.injectValue`: the raised
`EarlyExit(AuthorizationDenied(...))`, or the returned provider (possibly
`None`). -/
inductive InjectResult (α : Type) where
  | earlyExit (response : DenialResponse)
  | value (provider : Option α)
deriving DecidableEq, Repr

/-- The `Authorization` requirement: a capability interface plus the
`required` flag (source default: `True`). -/
structure Authorization where
  interface : IfaceName
  required : Bool
deriving DecidableEq, Repr

/-- `Authorization.optional(interface)`: a non-required requirement. -/
def Authorization.optional (interface : IfaceName) : Authorization :=
  { interface := interface, required := false }

/-- `Authorization.injectValue(request)`: resolve the single interface via
the session's `authorize`, take its provider from the mapping; raise
`EarlyExit(AuthorizationDenied(interface))` when required and absent, else
return the provider. (The session is the `ISession(request)` component;
procurement is assumed to have run, so it is passed directly.) -/
def Authorization.injectValue {α : Type} (a : Authorization)
    (session : AuthSession α) : InjectResult α :=
  let provider := session.authorize [a.interface] a.interface
  if a.required && provider.isNone then
    .earlyExit (AuthorizationDenied.render a.interface)
  else
    .value provider

/-- Is a store call the disclosure report? -/
def isSentInsecurelyCall : StoreCall → Bool
  | .sentInsecurely _ => true
  | _ => false

/-- Is a store call a `newSession` creation? -/
def isNewSessionCall : StoreCall → Bool
  | .newSession _ _ => true
  | _ => false

@[simp] theorem withTrace_result (t : List StoreCall) (o : ProcureOutcome) :
    (o.withTrace t).result = o.result := rfl

@[simp] theorem withTrace_trace (t : List StoreCall) (o : ProcureOutcome) :
    (o.withTrace t).trace = t ++ o.trace := rfl

@[simp] theorem withTrace_cookiesSet (t : List StoreCall) (o : ProcureOutcome) :
    (o.withTrace t).cookiesSet = o.cookiesSet := rfl

@[simp] theorem withTrace_cacheUpdate (t : List StoreCall) (o : ProcureOutcome) :
    (o.withTrace t).cacheUpdate = o.cacheUpdate := rfl

/-- Cookie issuance and caching make no store calls. -/
theorem issueAndCache_trace_nil (p : SessionProcurer) (request : Request)
    (cookieName : Bytes) (sentSecurely : Bool) (sessionID : Option Str)
    (session : Session) :
    (issueAndCache p request cookieName sentSecurely sessionID session).trace = [] := by
  simp only [issueAndCache]
  split_ifs <;> rfl

/-- The creation block refuses (returns `None`, calls nothing) when the
method is not GET or `setCookieOnGET` is off. -/
theorem creationPhase_refuse (p : SessionProcurer) (request : Request)
    (cookieName : Bytes) (sentSecurely : Bool) (mechanism : SessionMechanism)
    (h : request.method ≠ GETmethod ∨ p.setCookieOnGET = false) :
    creationPhase p request cookieName sentSecurely mechanism =
      { result := .ok none, trace := [], cookiesSet := [], cacheUpdate := none } := by
  unfold creationPhase
  rw [if_pos h]

/-- The creation block raises `TooLateForCookies` when creation is allowed
but response headers were already sent. -/
theorem creationPhase_too_late (p : SessionProcurer) (request : Request)
    (cookieName : Bytes) (sentSecurely : Bool) (mechanism : SessionMechanism)
    (hm : request.method = GETmethod) (hs : p.setCookieOnGET = true)
    (hw : request.startedWriting = true) :
    creationPhase p request cookieName sentSecurely mechanism =
      { result := .err .tooLateForCookies, trace := [], cookiesSet := [],
        cacheUpdate := none } := by
  unfold creationPhase
  rw [if_neg (by simp [hm, hs]), if_pos hw]

/-- The creation block calls `newSession` and falls through to issuance
when creation is allowed and headers were not sent. -/
theorem creationPhase_new (p : SessionProcurer) (request : Request)
    (cookieName : Bytes) (sentSecurely : Bool) (mechanism : SessionMechanism)
    (hm : request.method = GETmethod) (hs : p.setCookieOnGET = true)
    (hw : request.startedWriting = false) :
    creationPhase p request cookieName sentSecurely mechanism =
      (issueAndCache p request cookieName sentSecurely none
          (p.store.newSession sentSecurely mechanism)).withTrace
        [StoreCall.newSession sentSecurely mechanism] := by
  unfold creationPhase
  rw [if_neg (by simp [hm, hs]), if_neg (by simp [hw])]

/-- The issuance block skips the cookie write when the identifier is
unchanged, the method is not GET, or `setCookieOnGET` is off. -/
theorem issueAndCache_skip (p : SessionProcurer) (request : Request)
    (cookieName : Bytes) (sentSecurely : Bool) (sessionID : Option Str)
    (session : Session)
    (h : sessionID = some session.identifier ∨ request.method ≠ GETmethod ∨
      p.setCookieOnGET = false) :
    issueAndCache p request cookieName sentSecurely sessionID session =
      { result := .ok (some session), trace := [], cookiesSet := [],
        cacheUpdate :=
          if sentSecurely || !request.isSecure then some session else none } := by
  unfold issueAndCache
  rw [if_neg]
  rcases h with h | h | h <;> simp [h]

/-- The issuance block raises `TooLateForCookies` when a cookie write is
due but response headers were already sent. -/
theorem issueAndCache_too_late (p : SessionProcurer) (request : Request)
    (cookieName : Bytes) (sentSecurely : Bool) (sessionID : Option Str)
    (session : Session)
    (hid : sessionID ≠ some session.identifier) (hm : request.method = GETmethod)
    (hs : p.setCookieOnGET = true) (hw : request.startedWriting = true) :
    issueAndCache p request cookieName sentSecurely sessionID session =
      { result := .err .tooLateForCookies, trace := [], cookiesSet := [],
        cacheUpdate := none } := by
  unfold issueAndCache
  rw [if_pos ⟨hid, hm, hs⟩, if_pos hw]

/-- The issuance block writes the cookie when one is due and headers were
not sent. -/
theorem issueAndCache_write (p : SessionProcurer) (request : Request)
    (cookieName : Bytes) (sentSecurely : Bool) (sessionID : Option Str)
    (session : Session)
    (hid : sessionID ≠ some session.identifier) (hm : request.method = GETmethod)
    (hs : p.setCookieOnGET = true) (hw : request.startedWriting = false) :
    issueAndCache p request cookieName sentSecurely sessionID session =
      { result := .ok (some session), trace := [],
        cookiesSet := [{ name := cookieName, value := session.identifier,
                         max_age := p.maxAge, domain := p.cookieDomain,
                         path := p.cookiePath, secure := sentSecurely,
                         httpOnly := true }],
        cacheUpdate :=
          if sentSecurely || !request.isSecure then some session else none } := by
  unfold issueAndCache
  rw [if_pos ⟨hid, hm, hs⟩, if_neg (by simp [hw])]

/-- The request-scoped cache check: a request that already carries a
session is answered from the cache with no store calls, no cookies, and no
component update. -/
theorem procureSession_cached (p : SessionProcurer) (request : Request)
    (forceInsecure : Bool) (s : Session) (h : request.component = some s) :
    p.procureSession request forceInsecure =
      { result := .ok (some s), trace := [], cookiesSet := [],
        cacheUpdate := none } := by
  unfold SessionProcurer.procureSession
  rw [h]

/-- Without a cached session, `procureSession` runs the uncached
pipeline. -/
theorem procureSession_uncached (p : SessionProcurer) (request : Request)
    (forceInsecure : Bool) (h : request.component = none) :
    p.procureSession request forceInsecure = procureUncached p request forceInsecure := by
  unfold SessionProcurer.procureSession
  rw [h]

/-- The creation block calls the store at most through `newSession`. -/
theorem creationPhase_trace_cases (p : SessionProcurer) (request : Request)
    (cookieName : Bytes) (sentSecurely : Bool) (mechanism : SessionMechanism) :
    (creationPhase p request cookieName sentSecurely mechanism).trace = [] ∨
      (creationPhase p request cookieName sentSecurely mechanism).trace =
        [StoreCall.newSession sentSecurely mechanism] := by
  unfold creationPhase
  split_ifs
  · exact Or.inl rfl
  · exact Or.inl rfl
  · right
    simp [issueAndCache_trace_nil]

/-- Identifier extraction when the selected header is present. -/
theorem extractIdentifier_header (request : Request) (tokenHeader cookieName : Bytes)
    (v : Bytes) (hh : request.getHeader tokenHeader = some v) :
    extractIdentifier request tokenHeader cookieName =
      (SessionMechanism.Header, some v) := by
  unfold extractIdentifier
  rw [hh]

/-- Identifier extraction when the selected header is absent. -/
theorem extractIdentifier_cookie (request : Request) (tokenHeader cookieName : Bytes)
    (hh : request.getHeader tokenHeader = none) :
    extractIdentifier request tokenHeader cookieName =
      (SessionMechanism.Cookie, request.getCookie cookieName) := by
  unfold extractIdentifier
  rw [hh]

/-- The lookup block when the raw identifier is not ASCII: the decode
error propagates, no store call happens. -/
theorem lookupPhase_decode_fail (p : SessionProcurer) (request : Request)
    (cookieName : Bytes) (sentSecurely : Bool) (mechanism : SessionMechanism)
    (raw : Bytes) (hd : asciiDecode raw = none) :
    lookupPhase p request cookieName sentSecurely mechanism raw =
      { result := .err .decodeError, trace := [], cookiesSet := [],
        cacheUpdate := none } := by
  unfold lookupPhase
  rw [hd]

/-- The lookup block when the store finds the session. -/
theorem lookupPhase_load_ok (p : SessionProcurer) (request : Request)
    (cookieName : Bytes) (sentSecurely : Bool) (mechanism : SessionMechanism)
    (raw : Bytes) (sessionID : Str) (session : Session)
    (hd : asciiDecode raw = some sessionID)
    (hl : p.store.loadSession sessionID sentSecurely mechanism = .ok session) :
    lookupPhase p request cookieName sentSecurely mechanism raw =
      (issueAndCache p request cookieName sentSecurely (some sessionID)
          session).withTrace
        [StoreCall.loadSession sessionID sentSecurely mechanism] := by
  simp only [lookupPhase, hd, hl]

/-- The lookup block re-raises `NoSuchSession` for a header-presented
identifier. -/
theorem lookupPhase_header_noSuch (p : SessionProcurer) (request : Request)
    (cookieName : Bytes) (sentSecurely : Bool) (raw : Bytes) (sessionID : Str)
    (hd : asciiDecode raw = some sessionID)
    (hl : p.store.loadSession sessionID sentSecurely SessionMechanism.Header =
      .noSuchSession) :
    lookupPhase p request cookieName sentSecurely SessionMechanism.Header raw =
      { result := .err .noSuchSession,
        trace := [StoreCall.loadSession sessionID sentSecurely SessionMechanism.Header],
        cookiesSet := [], cacheUpdate := none } := by
  simp [lookupPhase, hd, hl]

/-- The lookup block swallows `NoSuchSession` for a cookie-presented
identifier and falls through to the creation block. -/
theorem lookupPhase_cookie_noSuch (p : SessionProcurer) (request : Request)
    (cookieName : Bytes) (sentSecurely : Bool) (raw : Bytes) (sessionID : Str)
    (hd : asciiDecode raw = some sessionID)
    (hl : p.store.loadSession sessionID sentSecurely SessionMechanism.Cookie =
      .noSuchSession) :
    lookupPhase p request cookieName sentSecurely SessionMechanism.Cookie raw =
      (creationPhase p request cookieName sentSecurely SessionMechanism.Cookie).withTrace
        [StoreCall.loadSession sessionID sentSecurely SessionMechanism.Cookie] := by
  simp [lookupPhase, hd, hl]

/-- The lookup block never reports a disclosure. -/
theorem lookupPhase_no_senti (p : SessionProcurer) (request : Request)
    (cookieName : Bytes) (sentSecurely : Bool) (mechanism : SessionMechanism)
    (raw : Bytes) :
    ((lookupPhase p request cookieName sentSecurely mechanism raw).trace.filter
      isSentInsecurelyCall) = [] := by
  cases hd : asciiDecode raw with
  | none =>
    rw [lookupPhase_decode_fail p request cookieName sentSecurely mechanism raw hd]
    rfl
  | some sessionID =>
    cases hl : p.store.loadSession sessionID sentSecurely mechanism with
    | ok session =>
      rw [lookupPhase_load_ok p request cookieName sentSecurely mechanism raw
        sessionID session hd hl]
      simp [issueAndCache_trace_nil, isSentInsecurelyCall]
    | noSuchSession =>
      cases mechanism with
      | Header =>
        rw [lookupPhase_header_noSuch p request cookieName sentSecurely raw
          sessionID hd hl]
        simp [isSentInsecurelyCall]
      | Cookie =>
        rw [lookupPhase_cookie_noSuch p request cookieName sentSecurely raw
          sessionID hd hl]
        rcases creationPhase_trace_cases p request cookieName sentSecurely
          SessionMechanism.Cookie with h | h <;>
          simp [h, isSentInsecurelyCall]

/-- The transport classification over an insecure transport: insecure
names, `sentSecurely = False`, and the disclosure report as pre-trace. -/
theorem transportClassification_insecure (p : SessionProcurer) (request : Request)
    (forceInsecure : Bool) (hsec : request.isSecure = false) :
    transportClassification p request forceInsecure =
      { tokenHeader := p.insecureTokenHeader, cookieName := p.insecureCookie,
        sentSecurely := false,
        preTrace := [StoreCall.sentInsecurely (allPossibleSentTokens p request)] } := by
  unfold transportClassification
  rw [hsec]
  rfl

/-- The transport classification over a secure transport without
`forceInsecure`: secure names, `sentSecurely = True`, no pre-trace. -/
theorem transportClassification_secure (p : SessionProcurer) (request : Request)
    (hsec : request.isSecure = true) :
    transportClassification p request false =
      { tokenHeader := p.secureTokenHeader, cookieName := p.secureCookie,
        sentSecurely := true, preTrace := [] } := by
  unfold transportClassification
  rw [hsec]
  rfl

/-- The transport classification over a secure transport with
`forceInsecure`: insecure names, `sentSecurely = False`, no pre-trace. -/
theorem transportClassification_forced (p : SessionProcurer) (request : Request)
    (hsec : request.isSecure = true) :
    transportClassification p request true =
      { tokenHeader := p.insecureTokenHeader, cookieName := p.insecureCookie,
        sentSecurely := false, preTrace := [] } := by
  unfold transportClassification
  rw [hsec]
  rfl

/-- A store that loads every identifier as a session with that same
identifier, and creates sessions named `fresh`. -/
def echoStore : SessionStore :=
  { loadSession := fun sessionID _ _ => .ok { identifier := sessionID },
    newSession := fun _ _ => { identifier := strToBytes ("fresh") } }

/-- A store that knows no sessions. -/
def emptyStore : SessionStore :=
  { loadSession := fun _ _ _ => .noSuchSession,
    newSession := fun _ _ => { identifier := strToBytes ("fresh") } }

/-- A store whose `loadSession` answers every identifier with a session
carrying a different identifier (a store-side identifier change). -/
def renamingStore : SessionStore :=
  { loadSession := fun _ _ _ => .ok { identifier := strToBytes ("changed") },
    newSession := fun _ _ => { identifier := strToBytes ("fresh") } }

/-- A bare insecure GET request presenting nothing. -/
def blankRequest : Request :=
  { isSecure := false, headers := fun _ => [], cookies := fun _ => none,
    method := GETmethod, startedWriting := false, component := none }

/-- Claim C4: for every required Authorization whose capability is absent
from the session's authorize() result, injectValue raises an EarlyExit
carrying a response with status 401 (the standard unauthorized code) and
body exactly "<qualified-capability-name> DENIED"; for every non-required
Authorization, injectValue never fails and returns the provider or the
absence marker. -/
theorem C4_authorization_denial {α : Type} (a : Authorization)
    (session : AuthSession α) :
    (a.required = true → session.authorize [a.interface] a.interface = none →
      a.injectValue session =
        .earlyExit { status := 401, body := a.interface ++ " DENIED" }) ∧
    (a.required = false →
      a.injectValue session =
        .value (session.authorize [a.interface] a.interface)) := by
  constructor
  · intro hreq habs
    simp [Authorization.injectValue, hreq, habs, AuthorizationDenied.render,
      UNAUTHORIZED]
  · intro hreq
    simp [Authorization.injectValue, hreq]

/-- Witness session granting only the capability named `cap.Granted`. -/
def sampleAuthSession : AuthSession Nat :=
  { authorize := fun _ i => if i = "cap.Granted" then some 7 else none }

/-- Witness for C4: a concrete required-but-absent capability is denied
with a 401 and the literal body; the optional variant returns `None`. -/
theorem C4_authorization_denial_witness :
    ((Authorization.mk ("cap.Secret") true).injectValue sampleAuthSession =
      .earlyExit { status := 401, body := "cap.Secret DENIED" }) ∧
    ((Authorization.mk ("cap.Secret") false).injectValue sampleAuthSession =
      .value none) := by
  constructor
  · have h := (C4_authorization_denial (Authorization.mk ("cap.Secret") true)
      sampleAuthSession).1 rfl (by simp [sampleAuthSession])
    rw [h]
    decide
  · have h := (C4_authorization_denial (Authorization.mk ("cap.Secret") false)
      sampleAuthSession).2 rfl
    rw [h]
    simp [sampleAuthSession]

/-- A procurer constructed with identical secure and insecure cookie names
and identical secure and insecure header names: the attrs-generated
constructor has no validator, so the value simply exists. -/
def equalNamesProcurer : SessionProcurer :=
  { store := emptyStore, maxAge := 3600,
    secureCookie := strToBytes ("Same-Cookie"),
    insecureCookie := strToBytes ("Same-Cookie"),
    cookieDomain := none, cookiePath := strToBytes ("/"),
    secureTokenHeader := strToBytes ("Same-Header"),
    insecureTokenHeader := strToBytes ("Same-Header"),
    setCookieOnGET := true }

/-- A secure POST request presenting nothing. -/
def securePostRequest : Request :=
  { isSecure := true, headers := fun _ => [], cookies := fun _ => none,
    method := strToBytes ("POST"), startedWriting := false, component := none }

/-- Claim C6 counterexample: constructing a SessionProcurer with equal
secure/insecure cookie names and equal secure/insecure header names does
not fail — the constructed procurer exists and procures normally (here: a
secure POST request yields `None` with no error). -/
theorem C6_counterexample :
    equalNamesProcurer.secureCookie = equalNamesProcurer.insecureCookie ∧
    equalNamesProcurer.secureTokenHeader = equalNamesProcurer.insecureTokenHeader ∧
    equalNamesProcurer.procureSession securePostRequest false =
      { result := .ok none, trace := [], cookiesSet := [], cacheUpdate := none } := by
  refine ⟨rfl, rfl, ?_⟩
  rfl

/-- Claim C6 amended: construction performs no validation of the
cross-field invariant — the constructor stores whatever names it is given,
equal or not — while the default secure and insecure cookie and header
names do differ. -/
theorem C6_no_constructor_validation (store : SessionStore) (n h : Bytes) :
    (mkSessionProcurer store).secureCookie ≠ (mkSessionProcurer store).insecureCookie ∧
    (mkSessionProcurer store).secureTokenHeader ≠
      (mkSessionProcurer store).insecureTokenHeader ∧
    (SessionProcurer.mk store 3600 n n none defaultCookiePath h h true).secureCookie =
      (SessionProcurer.mk store 3600 n n none defaultCookiePath h h true).insecureCookie := by
  refine ⟨?_, ?_, rfl⟩ <;> simp only [mkSessionProcurer] <;> decide

/-- The uncached pipeline when neither the selected header nor the selected
cookie is present: straight to the creation block, mechanism Cookie. -/
theorem procureUncached_no_id (p : SessionProcurer) (request : Request)
    (forceInsecure : Bool)
    (hh : request.getHeader (transportClassification p request forceInsecure).tokenHeader
      = none)
    (hc : request.getCookie (transportClassification p request forceInsecure).cookieName
      = none) :
    procureUncached p request forceInsecure =
      (creationPhase p request
          (transportClassification p request forceInsecure).cookieName
          (transportClassification p request forceInsecure).sentSecurely
          SessionMechanism.Cookie).withTrace
        (transportClassification p request forceInsecure).preTrace := by
  unfold procureUncached
  dsimp only
  rw [extractIdentifier_cookie _ _ _ hh, hc]

/-- The uncached pipeline when the selected header is present: the lookup
block runs with mechanism Header. -/
theorem procureUncached_header (p : SessionProcurer) (request : Request)
    (forceInsecure : Bool) (raw : Bytes)
    (hh : request.getHeader (transportClassification p request forceInsecure).tokenHeader
      = some raw) :
    procureUncached p request forceInsecure =
      (lookupPhase p request
          (transportClassification p request forceInsecure).cookieName
          (transportClassification p request forceInsecure).sentSecurely
          SessionMechanism.Header raw).withTrace
        (transportClassification p request forceInsecure).preTrace := by
  unfold procureUncached
  dsimp only
  rw [extractIdentifier_header _ _ _ _ hh]

/-- The uncached pipeline when only the selected cookie is present: the
lookup block runs with mechanism Cookie. -/
theorem procureUncached_cookie (p : SessionProcurer) (request : Request)
    (forceInsecure : Bool) (raw : Bytes)
    (hh : request.getHeader (transportClassification p request forceInsecure).tokenHeader
      = none)
    (hc : request.getCookie (transportClassification p request forceInsecure).cookieName
      = some raw) :
    procureUncached p request forceInsecure =
      (lookupPhase p request
          (transportClassification p request forceInsecure).cookieName
          (transportClassification p request forceInsecure).sentSecurely
          SessionMechanism.Cookie raw).withTrace
        (transportClassification p request forceInsecure).preTrace := by
  unfold procureUncached
  dsimp only
  rw [extractIdentifier_cookie _ _ _ hh, hc]

/-- The classification's pre-trace is nothing or the single disclosure
report. -/
theorem transportClassification_preTrace_cases (p : SessionProcurer)
    (request : Request) (forceInsecure : Bool) :
    (transportClassification p request forceInsecure).preTrace = [] ∨
      (transportClassification p request forceInsecure).preTrace =
        [StoreCall.sentInsecurely (allPossibleSentTokens p request)] := by
  unfold transportClassification
  split_ifs <;> simp

/-- Claim C7: over an insecure transport with no request-cached session,
procureSession invokes the store's sentInsecurely exactly once — as the
very first store call, before identifier extraction — with exactly the
credential values found under both token-header names and both cookie
names (the empty collection when none are present). -/
theorem C7_disclosure_always_reported (p : SessionProcurer) (request : Request)
    (forceInsecure : Bool) (hsec : request.isSecure = false)
    (hcomp : request.component = none) :
    (p.procureSession request forceInsecure).trace.take 1 =
      [StoreCall.sentInsecurely (allPossibleSentTokens p request)] ∧
    ((p.procureSession request forceInsecure).trace.filter
      isSentInsecurelyCall).length = 1 := by
  rw [procureSession_uncached p request forceInsecure hcomp]
  have htc := transportClassification_insecure p request forceInsecure hsec
  cases hh : request.getHeader (transportClassification p request forceInsecure).tokenHeader with
  | some raw =>
    rw [procureUncached_header p request forceInsecure raw hh, htc]
    constructor
    · simp
    · simp [List.filter_append, lookupPhase_no_senti, isSentInsecurelyCall]
  | none =>
    cases hc : request.getCookie (transportClassification p request forceInsecure).cookieName with
    | some raw =>
      rw [procureUncached_cookie p request forceInsecure raw hh hc, htc]
      constructor
      · simp
      · simp [List.filter_append, lookupPhase_no_senti, isSentInsecurelyCall]
    | none =>
      rw [procureUncached_no_id p request forceInsecure hh hc, htc]
      constructor
      · simp
      · rcases creationPhase_trace_cases p request p.insecureCookie false
          SessionMechanism.Cookie with h | h <;>
          simp [List.filter_append, h, isSentInsecurelyCall]

/-- Witness for C7: a bare insecure request causes the disclosure report
with the empty collection of candidate tokens. -/
theorem C7_disclosure_always_reported_witness :
    ((mkSessionProcurer emptyStore).procureSession blankRequest false).trace.take 1 =
      [StoreCall.sentInsecurely []] ∧
    (((mkSessionProcurer emptyStore).procureSession blankRequest false).trace.filter
      isSentInsecurelyCall).length = 1 := by
  have h := C7_disclosure_always_reported (mkSessionProcurer emptyStore)
    blankRequest false rfl rfl
  simpa [allPossibleSentTokens, blankRequest, Request.getCookie] using h

/-- Claim C9: with no usable identifier (none presented, or a
cookie-sourced one the store failed to load), a non-GET method or a
disabled setCookieOnGET makes procureSession return None, call newSession
never, and write no cookie. -/
theorem C9_no_session_for_non_GET (p : SessionProcurer) (request : Request)
    (forceInsecure : Bool) (hcomp : request.component = none)
    (hmeth : request.method ≠ GETmethod ∨ p.setCookieOnGET = false)
    (hh : request.getHeader (transportClassification p request forceInsecure).tokenHeader
      = none)
    (hno : request.getCookie (transportClassification p request forceInsecure).cookieName
        = none ∨
      (∃ c sessionID,
        request.getCookie (transportClassification p request forceInsecure).cookieName
          = some c ∧
        asciiDecode c = some sessionID ∧
        p.store.loadSession sessionID
          (transportClassification p request forceInsecure).sentSecurely
          SessionMechanism.Cookie = .noSuchSession)) :
    (p.procureSession request forceInsecure).result = .ok none ∧
    ((p.procureSession request forceInsecure).trace.filter isNewSessionCall) = [] ∧
    (p.procureSession request forceInsecure).cookiesSet = [] := by
  rw [procureSession_uncached p request forceInsecure hcomp]
  rcases hno with hc | ⟨c, sessionID, hc, hd, hl⟩
  · rw [procureUncached_no_id p request forceInsecure hh hc,
      creationPhase_refuse p request _ _ _ hmeth]
    refine ⟨rfl, ?_, rfl⟩
    rcases transportClassification_preTrace_cases p request forceInsecure with h | h <;>
      simp [h, isNewSessionCall]
  · rw [procureUncached_cookie p request forceInsecure c hh hc,
      lookupPhase_cookie_noSuch p request _ _ c sessionID hd hl,
      creationPhase_refuse p request _ _ _ hmeth]
    refine ⟨rfl, ?_, rfl⟩
    rcases transportClassification_preTrace_cases p request forceInsecure with h | h <;>
      simp [h, isNewSessionCall]

/-- Witness for C9: a secure POST request presenting nothing yields None,
no creation, no cookie. -/
theorem C9_no_session_for_non_GET_witness :
    ((mkSessionProcurer emptyStore).procureSession securePostRequest false).result =
      .ok none ∧
    (((mkSessionProcurer emptyStore).procureSession securePostRequest false).trace.filter
      isNewSessionCall) = [] ∧
    ((mkSessionProcurer emptyStore).procureSession securePostRequest false).cookiesSet =
      [] :=
  C9_no_session_for_non_GET (mkSessionProcurer emptyStore) securePostRequest false rfl
    (Or.inl (by decide)) rfl (Or.inl rfl)

/-- Does a store call avoid creating a session via mechanism Header?
(`newSession` calls must carry mechanism Cookie; other calls pass.) -/
def newSessionUsesCookie : StoreCall → Bool
  | .newSession _ mechanism => mechanism == SessionMechanism.Cookie
  | _ => true

/-- The classification's pre-trace never creates a session. -/
theorem transportClassification_preTrace_all (p : SessionProcurer)
    (request : Request) (forceInsecure : Bool) :
    ((transportClassification p request forceInsecure).preTrace.all
      newSessionUsesCookie) = true := by
  rcases transportClassification_preTrace_cases p request forceInsecure with h | h <;>
    simp [h, newSessionUsesCookie]

/-- The lookup block only ever creates sessions with mechanism Cookie
(after swallowing a cookie-sourced NoSuchSession). -/
theorem lookupPhase_all_cookie (p : SessionProcurer) (request : Request)
    (cookieName : Bytes) (sentSecurely : Bool) (mechanism : SessionMechanism)
    (raw : Bytes) :
    ((lookupPhase p request cookieName sentSecurely mechanism raw).trace.all
      newSessionUsesCookie) = true := by
  cases hd : asciiDecode raw with
  | none =>
    rw [lookupPhase_decode_fail p request cookieName sentSecurely mechanism raw hd]
    rfl
  | some sessionID =>
    cases hl : p.store.loadSession sessionID sentSecurely mechanism with
    | ok session =>
      rw [lookupPhase_load_ok p request cookieName sentSecurely mechanism raw
        sessionID session hd hl]
      simp [issueAndCache_trace_nil, newSessionUsesCookie]
    | noSuchSession =>
      cases mechanism with
      | Header =>
        rw [lookupPhase_header_noSuch p request cookieName sentSecurely raw
          sessionID hd hl]
        simp [newSessionUsesCookie]
      | Cookie =>
        rw [lookupPhase_cookie_noSuch p request cookieName sentSecurely raw
          sessionID hd hl]
        rcases creationPhase_trace_cases p request cookieName sentSecurely
          SessionMechanism.Cookie with h | h <;>
          simp [h, newSessionUsesCookie]

/-- Claim C10: every newSession call procureSession ever makes passes
mechanism Cookie, never Header — a header-presented identifier either
loads or propagates NoSuchSession, so creation is unreachable for it. -/
theorem C10_creation_mechanism_always_cookie (p : SessionProcurer)
    (request : Request) (forceInsecure : Bool) :
    ((p.procureSession request forceInsecure).trace.all newSessionUsesCookie) = true := by
  cases hcomp : request.component with
  | some s =>
    rw [procureSession_cached p request forceInsecure s hcomp]
    rfl
  | none =>
    rw [procureSession_uncached p request forceInsecure hcomp]
    cases hh : request.getHeader (transportClassification p request forceInsecure).tokenHeader with
    | some raw =>
      rw [procureUncached_header p request forceInsecure raw hh]
      simp [List.all_append, lookupPhase_all_cookie,
        transportClassification_preTrace_all]
    | none =>
      cases hc : request.getCookie (transportClassification p request forceInsecure).cookieName with
      | some raw =>
        rw [procureUncached_cookie p request forceInsecure raw hh hc]
        simp [List.all_append, lookupPhase_all_cookie,
          transportClassification_preTrace_all]
      | none =>
        rw [procureUncached_no_id p request forceInsecure hh hc]
        rcases creationPhase_trace_cases p request
          (transportClassification p request forceInsecure).cookieName
          (transportClassification p request forceInsecure).sentSecurely
          SessionMechanism.Cookie with h | h <;>
          simp [List.all_append, h, newSessionUsesCookie,
            transportClassification_preTrace_all]

/-- Once response headers are sent, the issuance block writes nothing. -/
theorem issueAndCache_cookiesSet_of_started (p : SessionProcurer) (request : Request)
    (cookieName : Bytes) (sentSecurely : Bool) (sessionID : Option Str)
    (session : Session) (hw : request.startedWriting = true) :
    (issueAndCache p request cookieName sentSecurely sessionID session).cookiesSet = [] := by
  unfold issueAndCache
  split_ifs <;> simp_all

/-- Once response headers are sent, the creation block neither calls the
store nor writes a cookie. -/
theorem creationPhase_of_started (p : SessionProcurer) (request : Request)
    (cookieName : Bytes) (sentSecurely : Bool) (mechanism : SessionMechanism)
    (hw : request.startedWriting = true) :
    (creationPhase p request cookieName sentSecurely mechanism).cookiesSet = [] ∧
    (creationPhase p request cookieName sentSecurely mechanism).trace = [] := by
  unfold creationPhase
  split_ifs <;> simp_all

/-- Once response headers are sent, the lookup block writes no cookie and
never creates a session. -/
theorem lookupPhase_of_started (p : SessionProcurer) (request : Request)
    (cookieName : Bytes) (sentSecurely : Bool) (mechanism : SessionMechanism)
    (raw : Bytes) (hw : request.startedWriting = true) :
    (lookupPhase p request cookieName sentSecurely mechanism raw).cookiesSet = [] ∧
    ((lookupPhase p request cookieName sentSecurely mechanism raw).trace.filter
      isNewSessionCall) = [] := by
  cases hd : asciiDecode raw with
  | none =>
    rw [lookupPhase_decode_fail p request cookieName sentSecurely mechanism raw hd]
    exact ⟨rfl, rfl⟩
  | some sessionID =>
    cases hl : p.store.loadSession sessionID sentSecurely mechanism with
    | ok session =>
      rw [lookupPhase_load_ok p request cookieName sentSecurely mechanism raw
        sessionID session hd hl]
      refine ⟨?_, ?_⟩
      · simp [issueAndCache_cookiesSet_of_started p request cookieName sentSecurely
          (some sessionID) session hw]
      · simp [issueAndCache_trace_nil, isNewSessionCall]
    | noSuchSession =>
      cases mechanism with
      | Header =>
        rw [lookupPhase_header_noSuch p request cookieName sentSecurely raw
          sessionID hd hl]
        exact ⟨rfl, by simp [isNewSessionCall]⟩
      | Cookie =>
        rw [lookupPhase_cookie_noSuch p request cookieName sentSecurely raw
          sessionID hd hl]
        obtain ⟨hck, htr⟩ := creationPhase_of_started p request cookieName
          sentSecurely SessionMechanism.Cookie hw
        exact ⟨by simp [hck], by simp [htr, isNewSessionCall]⟩

/-- Claim C8: once `startedWriting` is true, procureSession writes no
cookie and creates no session, ever; and both the session-creation attempt
(no usable identifier, GET, setCookieOnGET) and the changed-identifier
cookie rewrite attempt raise TooLateForCookies. -/
theorem C8_too_late_for_cookies (p : SessionProcurer) (request : Request)
    (forceInsecure : Bool) (hw : request.startedWriting = true) :
    (p.procureSession request forceInsecure).cookiesSet = [] ∧
    ((p.procureSession request forceInsecure).trace.filter isNewSessionCall) = [] ∧
    (request.component = none →
      request.getHeader (transportClassification p request forceInsecure).tokenHeader
        = none →
      request.getCookie (transportClassification p request forceInsecure).cookieName
        = none →
      request.method = GETmethod → p.setCookieOnGET = true →
      (p.procureSession request forceInsecure).result = .err .tooLateForCookies) ∧
    (∀ raw sessionID session,
      request.component = none →
      request.getHeader (transportClassification p request forceInsecure).tokenHeader
        = some raw →
      asciiDecode raw = some sessionID →
      p.store.loadSession sessionID
        (transportClassification p request forceInsecure).sentSecurely
        SessionMechanism.Header = .ok session →
      session.identifier ≠ sessionID →
      request.method = GETmethod → p.setCookieOnGET = true →
      (p.procureSession request forceInsecure).result = .err .tooLateForCookies) := by
  refine ⟨?_, ?_, ?_, ?_⟩
  · cases hcomp : request.component with
    | some s => rw [procureSession_cached p request forceInsecure s hcomp]
    | none =>
      rw [procureSession_uncached p request forceInsecure hcomp]
      cases hh : request.getHeader
          (transportClassification p request forceInsecure).tokenHeader with
      | some raw =>
        rw [procureUncached_header p request forceInsecure raw hh]
        simp [(lookupPhase_of_started p request _ _ SessionMechanism.Header raw hw).1]
      | none =>
        cases hc : request.getCookie
            (transportClassification p request forceInsecure).cookieName with
        | some raw =>
          rw [procureUncached_cookie p request forceInsecure raw hh hc]
          simp [(lookupPhase_of_started p request _ _ SessionMechanism.Cookie raw hw).1]
        | none =>
          rw [procureUncached_no_id p request forceInsecure hh hc]
          simp [(creationPhase_of_started p request _ _ SessionMechanism.Cookie hw).1]
  · cases hcomp : request.component with
    | some s => rw [procureSession_cached p request forceInsecure s hcomp]; rfl
    | none =>
      rw [procureSession_uncached p request forceInsecure hcomp]
      cases hh : request.getHeader
          (transportClassification p request forceInsecure).tokenHeader with
      | some raw =>
        rw [procureUncached_header p request forceInsecure raw hh]
        rcases transportClassification_preTrace_cases p request forceInsecure with h | h <;>
          simp [h, List.filter_append, isSentInsecurelyCall, isNewSessionCall,
            (lookupPhase_of_started p request _ _ SessionMechanism.Header raw hw).2]
      | none =>
        cases hc : request.getCookie
            (transportClassification p request forceInsecure).cookieName with
        | some raw =>
          rw [procureUncached_cookie p request forceInsecure raw hh hc]
          rcases transportClassification_preTrace_cases p request forceInsecure with h | h <;>
            simp [h, List.filter_append, isNewSessionCall,
              (lookupPhase_of_started p request _ _ SessionMechanism.Cookie raw hw).2]
        | none =>
          rw [procureUncached_no_id p request forceInsecure hh hc]
          rcases transportClassification_preTrace_cases p request forceInsecure with h | h <;>
            simp [h, List.filter_append, isNewSessionCall,
              (creationPhase_of_started p request _ _ SessionMechanism.Cookie hw).2]
  · intro hcomp hh hc hm hs
    rw [procureSession_uncached p request forceInsecure hcomp,
      procureUncached_no_id p request forceInsecure hh hc,
      creationPhase_too_late p request _ _ SessionMechanism.Cookie hm hs hw]
    rfl
  · intro raw sessionID session hcomp hh hd hl hneq hm hs
    rw [procureSession_uncached p request forceInsecure hcomp,
      procureUncached_header p request forceInsecure raw hh,
      lookupPhase_load_ok p request _ _ SessionMechanism.Header raw sessionID session
        hd hl,
      issueAndCache_too_late p request _ _ (some sessionID) session
        (by simpa using fun h => hneq h.symm) hm hs hw]
    rfl

/-- A bare insecure GET request whose response has started writing. -/
def startedRequest : Request :=
  { blankRequest with startedWriting := true }

/-- Witness for C8: the started-writing GET request with nothing presented
raises TooLateForCookies, writes no cookie, creates nothing. -/
theorem C8_too_late_for_cookies_witness :
    ((mkSessionProcurer emptyStore).procureSession startedRequest false).cookiesSet = [] ∧
    (((mkSessionProcurer emptyStore).procureSession startedRequest false).trace.filter
      isNewSessionCall) = [] ∧
    ((mkSessionProcurer emptyStore).procureSession startedRequest false).result =
      .err .tooLateForCookies := by
  have h := C8_too_late_for_cookies (mkSessionProcurer emptyStore) startedRequest false rfl
  exact ⟨h.1, h.2.1, h.2.2.1 rfl rfl rfl rfl rfl⟩

/-- The issuance block can never produce a NoSuchSession failure. -/
theorem issueAndCache_no_noSuch (p : SessionProcurer) (request : Request)
    (cookieName : Bytes) (sentSecurely : Bool) (sessionID : Option Str)
    (session : Session) :
    (issueAndCache p request cookieName sentSecurely sessionID session).result ≠
      .err .noSuchSession := by
  unfold issueAndCache
  split_ifs <;> simp

/-- The creation block can never produce a NoSuchSession failure. -/
theorem creationPhase_no_noSuch (p : SessionProcurer) (request : Request)
    (cookieName : Bytes) (sentSecurely : Bool) (mechanism : SessionMechanism) :
    (creationPhase p request cookieName sentSecurely mechanism).result ≠
      .err .noSuchSession := by
  unfold creationPhase
  split_ifs
  · simp
  · simp
  · simpa using issueAndCache_no_noSuch p request cookieName sentSecurely none
      (p.store.newSession sentSecurely mechanism)

/-- The request with the selected session cookie removed: used to state
that a failed cookie lookup behaves exactly like an absent cookie. -/
def removeSelectedCookie (p : SessionProcurer) (request : Request)
    (forceInsecure : Bool) : Request :=
  { request with
    cookies := fun n =>
      if n = (transportClassification p request forceInsecure).cookieName then none
      else request.cookies n }

/-- Removing a cookie leaves the headers alone. -/
theorem removeSelectedCookie_getHeader (p : SessionProcurer) (request : Request)
    (forceInsecure : Bool) (name : Bytes) :
    (removeSelectedCookie p request forceInsecure).getHeader name =
      request.getHeader name := rfl

/-- The removed cookie is gone. -/
theorem removeSelectedCookie_getCookie (p : SessionProcurer) (request : Request)
    (forceInsecure : Bool) :
    (removeSelectedCookie p request forceInsecure).getCookie
      (transportClassification p request forceInsecure).cookieName = none := by
  simp [removeSelectedCookie, Request.getCookie]

/-- Removing a cookie does not change which names are selected or the
`sentSecurely` flag, and leaves the pre-trace empty or a single disclosure
report. -/
theorem transportClassification_remove (p : SessionProcurer) (request : Request)
    (forceInsecure : Bool) :
    (transportClassification p (removeSelectedCookie p request forceInsecure)
        forceInsecure).tokenHeader =
      (transportClassification p request forceInsecure).tokenHeader ∧
    (transportClassification p (removeSelectedCookie p request forceInsecure)
        forceInsecure).cookieName =
      (transportClassification p request forceInsecure).cookieName ∧
    (transportClassification p (removeSelectedCookie p request forceInsecure)
        forceInsecure).sentSecurely =
      (transportClassification p request forceInsecure).sentSecurely := by
  unfold transportClassification
  by_cases hs : request.isSecure <;> by_cases hf : forceInsecure <;>
    simp [removeSelectedCookie, hs, hf]

/-- The creation block never reads the request's cookies, so removing one
changes nothing there. -/
theorem creationPhase_cookies_agnostic (p : SessionProcurer) (request : Request)
    (f : Bytes → Option Bytes) (cookieName : Bytes) (sentSecurely : Bool)
    (mechanism : SessionMechanism) :
    creationPhase p { request with cookies := f } cookieName sentSecurely mechanism =
      creationPhase p request cookieName sentSecurely mechanism := rfl

/-- Claim C5: a NoSuchSession from the store propagates (with no creation
and no cookie write) when the identifier came from a header, and is
swallowed when it came from a cookie: the procurement then has exactly the
observable behavior of the same request without that cookie (same result,
cookies, cache update, and creation calls), and the failure never
escapes. -/
theorem C5_noSuchSession_policy (p : SessionProcurer) (request : Request)
    (forceInsecure : Bool) (hcomp : request.component = none) :
    (∀ raw sessionID,
      request.getHeader (transportClassification p request forceInsecure).tokenHeader
        = some raw →
      asciiDecode raw = some sessionID →
      p.store.loadSession sessionID
        (transportClassification p request forceInsecure).sentSecurely
        SessionMechanism.Header = .noSuchSession →
      (p.procureSession request forceInsecure).result = .err .noSuchSession ∧
      ((p.procureSession request forceInsecure).trace.filter isNewSessionCall) = [] ∧
      (p.procureSession request forceInsecure).cookiesSet = []) ∧
    (∀ raw sessionID,
      request.getHeader (transportClassification p request forceInsecure).tokenHeader
        = none →
      request.getCookie (transportClassification p request forceInsecure).cookieName
        = some raw →
      asciiDecode raw = some sessionID →
      p.store.loadSession sessionID
        (transportClassification p request forceInsecure).sentSecurely
        SessionMechanism.Cookie = .noSuchSession →
      (p.procureSession request forceInsecure).result =
        (p.procureSession (removeSelectedCookie p request forceInsecure)
          forceInsecure).result ∧
      (p.procureSession request forceInsecure).cookiesSet =
        (p.procureSession (removeSelectedCookie p request forceInsecure)
          forceInsecure).cookiesSet ∧
      (p.procureSession request forceInsecure).cacheUpdate =
        (p.procureSession (removeSelectedCookie p request forceInsecure)
          forceInsecure).cacheUpdate ∧
      ((p.procureSession request forceInsecure).trace.filter isNewSessionCall) =
        ((p.procureSession (removeSelectedCookie p request forceInsecure)
          forceInsecure).trace.filter isNewSessionCall) ∧
      (p.procureSession request forceInsecure).result ≠ .err .noSuchSession) := by
  constructor
  · intro raw sessionID hh hd hl
    rw [procureSession_uncached p request forceInsecure hcomp,
      procureUncached_header p request forceInsecure raw hh,
      lookupPhase_header_noSuch p request _ _ raw sessionID hd hl]
    refine ⟨rfl, ?_, rfl⟩
    rcases transportClassification_preTrace_cases p request forceInsecure with h | h <;>
      simp [h, isNewSessionCall]
  · intro raw sessionID hh hc hd hl
    obtain ⟨hth, hcn, hss⟩ := transportClassification_remove p request forceInsecure
    have hh' : (removeSelectedCookie p request forceInsecure).getHeader
        (transportClassification p (removeSelectedCookie p request forceInsecure)
          forceInsecure).tokenHeader = none := by
      rw [hth, removeSelectedCookie_getHeader]
      exact hh
    have hc' : (removeSelectedCookie p request forceInsecure).getCookie
        (transportClassification p (removeSelectedCookie p request forceInsecure)
          forceInsecure).cookieName = none := by
      rw [hcn]
      exact removeSelectedCookie_getCookie p request forceInsecure
    have hcomp' : (removeSelectedCookie p request forceInsecure).component = none := hcomp
    rw [procureSession_uncached p request forceInsecure hcomp,
      procureSession_uncached p (removeSelectedCookie p request forceInsecure)
        forceInsecure hcomp',
      procureUncached_cookie p request forceInsecure raw hh hc,
      lookupPhase_cookie_noSuch p request _ _ raw sessionID hd hl,
      procureUncached_no_id p (removeSelectedCookie p request forceInsecure)
        forceInsecure hh' hc',
      hcn, hss, removeSelectedCookie]
    refine ⟨rfl, rfl, rfl, ?_, ?_⟩
    · rcases transportClassification_preTrace_cases p request forceInsecure with h | h <;>
        rcases transportClassification_preTrace_cases p
          (removeSelectedCookie p request forceInsecure) forceInsecure with h' | h' <;>
        simp [removeSelectedCookie] at h' <;>
        simp [h, h', List.filter_append, isNewSessionCall, removeSelectedCookie] <;>
        try rfl
    · simpa using creationPhase_no_noSuch p request
        (transportClassification p request forceInsecure).cookieName
        (transportClassification p request forceInsecure).sentSecurely
        SessionMechanism.Cookie

/-- An insecure GET request presenting an unknown identifier via the
insecure token header. -/
def headerBadRequest : Request :=
  { blankRequest with
    headers := fun n =>
      if n = defaultInsecureTokenHeader then [strToBytes ("bad")] else [] }

/-- An insecure GET request presenting an unknown identifier via the
insecure session cookie. -/
def cookieBadRequest : Request :=
  { blankRequest with
    cookies := fun n =>
      if n = defaultInsecureCookie then some (strToBytes ("bad")) else none }

/-- Witness for C5: a concrete unknown header identifier propagates the
failure with no creation; a concrete unknown cookie identifier behaves
exactly like the request without that cookie and the failure is
swallowed. -/
theorem C5_noSuchSession_policy_witness :
    (((mkSessionProcurer emptyStore).procureSession headerBadRequest false).result =
        .err .noSuchSession ∧
      (((mkSessionProcurer emptyStore).procureSession headerBadRequest false).trace.filter
        isNewSessionCall) = [] ∧
      ((mkSessionProcurer emptyStore).procureSession headerBadRequest false).cookiesSet =
        []) ∧
    (((mkSessionProcurer emptyStore).procureSession cookieBadRequest false).result =
        ((mkSessionProcurer emptyStore).procureSession
          (removeSelectedCookie (mkSessionProcurer emptyStore) cookieBadRequest false)
          false).result ∧
      ((mkSessionProcurer emptyStore).procureSession cookieBadRequest false).cookiesSet =
        ((mkSessionProcurer emptyStore).procureSession
          (removeSelectedCookie (mkSessionProcurer emptyStore) cookieBadRequest false)
          false).cookiesSet ∧
      ((mkSessionProcurer emptyStore).procureSession cookieBadRequest false).cacheUpdate =
        ((mkSessionProcurer emptyStore).procureSession
          (removeSelectedCookie (mkSessionProcurer emptyStore) cookieBadRequest false)
          false).cacheUpdate ∧
      (((mkSessionProcurer emptyStore).procureSession cookieBadRequest false).trace.filter
          isNewSessionCall) =
        (((mkSessionProcurer emptyStore).procureSession
          (removeSelectedCookie (mkSessionProcurer emptyStore) cookieBadRequest false)
          false).trace.filter isNewSessionCall) ∧
      ((mkSessionProcurer emptyStore).procureSession cookieBadRequest false).result ≠
        .err .noSuchSession) := by
  constructor
  · exact (C5_noSuchSession_policy (mkSessionProcurer emptyStore) headerBadRequest
      false rfl).1 (strToBytes ("bad")) (strToBytes ("bad")) rfl rfl rfl
  · exact (C5_noSuchSession_policy (mkSessionProcurer emptyStore) cookieBadRequest
      false rfl).2 (strToBytes ("bad")) (strToBytes ("bad")) rfl rfl rfl rfl

/-- An insecure GET request presenting the non-ASCII byte 0xFF via the
insecure token header. -/
def nonAsciiHeaderRequest : Request :=
  { blankRequest with
    headers := fun n => if n = defaultInsecureTokenHeader then [[255]] else [] }

/-- An insecure GET request presenting the non-ASCII byte 0xFF via the
insecure session cookie. -/
def nonAsciiCookieRequest : Request :=
  { blankRequest with
    cookies := fun n => if n = defaultInsecureCookie then some [255] else none }

/-- Claim C1 counterexample: a GET request presenting the single non-ASCII
byte 0xFF as its header identifier (creation enabled, nothing else
presented) is not treated as if the identifier were absent — the creation
rules would produce a fresh session here, but instead the decode failure
propagates as an error, and no creation or cookie write happens. -/
theorem C1_counterexample :
    ((mkSessionProcurer emptyStore).procureSession nonAsciiHeaderRequest false).result =
      .err .decodeError ∧
    (((mkSessionProcurer emptyStore).procureSession nonAsciiHeaderRequest
      false).trace.filter isNewSessionCall) = [] ∧
    ((mkSessionProcurer emptyStore).procureSession nonAsciiHeaderRequest
      false).cookiesSet = [] :=
  ⟨rfl, rfl, rfl⟩

/-- Claim C1 amended: a presented session identifier whose raw bytes are
not valid ASCII makes procureSession raise the decoding failure rather
than treating the identifier as absent: the store is neither asked to load
nor to create a session, no cookie is written, and nothing is cached. -/
theorem C1_decode_failure_raises (p : SessionProcurer) (request : Request)
    (forceInsecure : Bool) (hcomp : request.component = none)
    (hbad :
      (∃ raw,
        request.getHeader (transportClassification p request forceInsecure).tokenHeader
          = some raw ∧ asciiDecode raw = none) ∨
      (request.getHeader (transportClassification p request forceInsecure).tokenHeader
          = none ∧
        ∃ raw,
          request.getCookie (transportClassification p request forceInsecure).cookieName
            = some raw ∧ asciiDecode raw = none)) :
    (p.procureSession request forceInsecure).result = .err .decodeError ∧
    (p.procureSession request forceInsecure).trace =
      (transportClassification p request forceInsecure).preTrace ∧
    (p.procureSession request forceInsecure).cookiesSet = [] ∧
    (p.procureSession request forceInsecure).cacheUpdate = none := by
  rw [procureSession_uncached p request forceInsecure hcomp]
  rcases hbad with ⟨raw, hh, hd⟩ | ⟨hh, raw, hc, hd⟩
  · rw [procureUncached_header p request forceInsecure raw hh,
      lookupPhase_decode_fail p request _ _ _ raw hd]
    exact ⟨rfl, by simp, rfl, rfl⟩
  · rw [procureUncached_cookie p request forceInsecure raw hh hc,
      lookupPhase_decode_fail p request _ _ _ raw hd]
    exact ⟨rfl, by simp, rfl, rfl⟩

/-- Witness for the amended C1: the non-ASCII cookie identifier raises the
decode failure with no store mutation. -/
theorem C1_decode_failure_raises_witness :
    ((mkSessionProcurer emptyStore).procureSession nonAsciiCookieRequest false).result =
      .err .decodeError ∧
    ((mkSessionProcurer emptyStore).procureSession nonAsciiCookieRequest false).trace =
      (transportClassification (mkSessionProcurer emptyStore) nonAsciiCookieRequest
        false).preTrace ∧
    ((mkSessionProcurer emptyStore).procureSession nonAsciiCookieRequest
      false).cookiesSet = [] ∧
    ((mkSessionProcurer emptyStore).procureSession nonAsciiCookieRequest
      false).cacheUpdate = none :=
  C1_decode_failure_raises (mkSessionProcurer emptyStore) nonAsciiCookieRequest false rfl
    (Or.inr ⟨rfl, [255], rfl, rfl⟩)

/-- If the issuance block cached a session on the request, that session is
also the one it returned. -/
theorem issueAndCache_cacheUpdate_result (p : SessionProcurer) (request : Request)
    (cookieName : Bytes) (sentSecurely : Bool) (sessionID : Option Str)
    (session : Session) (s : Session)
    (h : (issueAndCache p request cookieName sentSecurely sessionID session).cacheUpdate
      = some s) :
    (issueAndCache p request cookieName sentSecurely sessionID session).result =
      .ok (some s) := by
  unfold issueAndCache at h ⊢
  split_ifs at h ⊢ <;> simp_all

/-- If the creation block cached a session, it also returned it. -/
theorem creationPhase_cacheUpdate_result (p : SessionProcurer) (request : Request)
    (cookieName : Bytes) (sentSecurely : Bool) (mechanism : SessionMechanism)
    (s : Session)
    (h : (creationPhase p request cookieName sentSecurely mechanism).cacheUpdate
      = some s) :
    (creationPhase p request cookieName sentSecurely mechanism).result =
      .ok (some s) := by
  unfold creationPhase at h ⊢
  split_ifs at h ⊢
  have h2 : (issueAndCache p request cookieName sentSecurely none
      (p.store.newSession sentSecurely mechanism)).cacheUpdate = some s := by
    simpa using h
  simpa using issueAndCache_cacheUpdate_result _ _ _ _ _ _ _ h2

/-- If the lookup block cached a session, it also returned it. -/
theorem lookupPhase_cacheUpdate_result (p : SessionProcurer) (request : Request)
    (cookieName : Bytes) (sentSecurely : Bool) (mechanism : SessionMechanism)
    (raw : Bytes) (s : Session)
    (h : (lookupPhase p request cookieName sentSecurely mechanism raw).cacheUpdate
      = some s) :
    (lookupPhase p request cookieName sentSecurely mechanism raw).result =
      .ok (some s) := by
  cases hd : asciiDecode raw with
  | none =>
    rw [lookupPhase_decode_fail p request cookieName sentSecurely mechanism raw hd] at h
    simp at h
  | some sessionID =>
    cases hl : p.store.loadSession sessionID sentSecurely mechanism with
    | ok session =>
      rw [lookupPhase_load_ok p request cookieName sentSecurely mechanism raw
        sessionID session hd hl] at h ⊢
      simp only [withTrace_cacheUpdate] at h
      simp only [withTrace_result]
      exact issueAndCache_cacheUpdate_result _ _ _ _ _ _ _ h
    | noSuchSession =>
      cases mechanism with
      | Header =>
        rw [lookupPhase_header_noSuch p request cookieName sentSecurely raw
          sessionID hd hl] at h
        simp at h
      | Cookie =>
        rw [lookupPhase_cookie_noSuch p request cookieName sentSecurely raw
          sessionID hd hl] at h ⊢
        simp only [withTrace_cacheUpdate] at h
        simp only [withTrace_result]
        exact creationPhase_cacheUpdate_result _ _ _ _ _ _ h

/-- Whatever procureSession caches on the request is also what it
returned. -/
theorem procureSession_cacheUpdate_result (p : SessionProcurer) (request : Request)
    (forceInsecure : Bool) (s : Session)
    (h : (p.procureSession request forceInsecure).cacheUpdate = some s) :
    (p.procureSession request forceInsecure).result = .ok (some s) := by
  cases hcomp : request.component with
  | some t =>
    rw [procureSession_cached p request forceInsecure t hcomp] at h
    simp at h
  | none =>
    rw [procureSession_uncached p request forceInsecure hcomp] at h ⊢
    cases hh : request.getHeader
        (transportClassification p request forceInsecure).tokenHeader with
    | some raw =>
      rw [procureUncached_header p request forceInsecure raw hh] at h ⊢
      simp only [withTrace_cacheUpdate] at h
      simp only [withTrace_result]
      exact lookupPhase_cacheUpdate_result _ _ _ _ _ _ _ h
    | none =>
      cases hc : request.getCookie
          (transportClassification p request forceInsecure).cookieName with
      | some raw =>
        rw [procureUncached_cookie p request forceInsecure raw hh hc] at h ⊢
        simp only [withTrace_cacheUpdate] at h
        simp only [withTrace_result]
        exact lookupPhase_cacheUpdate_result _ _ _ _ _ _ _ h
      | none =>
        rw [procureUncached_no_id p request forceInsecure hh hc] at h ⊢
        simp only [withTrace_cacheUpdate] at h
        simp only [withTrace_result]
        exact creationPhase_cacheUpdate_result _ _ _ _ _ _ h

/-- A secure request carrying a session identifier under the insecure
cookie name (the one selected when `forceInsecure` is passed). -/
def forceInsecureRequest : Request :=
  { blankRequest with
    isSecure := true,
    cookies := fun n =>
      if n = defaultInsecureCookie then some (strToBytes ("abc")) else none }

/-- Claim C2 counterexample: with forceInsecure=true on a secure transport
the first procureSession call caches nothing on the request (the request
is left unchanged), and the call makes a store call — so the second,
identical call repeats that store call instead of performing none. -/
theorem C2_counterexample :
    ((mkSessionProcurer echoStore).procureSession forceInsecureRequest true).cacheUpdate
      = none ∧
    ((mkSessionProcurer echoStore).procureSession forceInsecureRequest true).trace ≠
      [] := by
  refine ⟨rfl, ?_⟩
  have h : ((mkSessionProcurer echoStore).procureSession forceInsecureRequest
      true).trace =
      [StoreCall.loadSession (strToBytes ("abc")) false SessionMechanism.Cookie] := rfl
  rw [h]
  simp

/-- Claim C2 amended: whenever a procureSession call cached the session it
resolved on the request, a second call on the resulting request returns
that identical session immediately, performing no store calls and writing
no cookie. (When nothing was cached — in particular with forceInsecure on
a secure transport — the counterexample shows the store calls repeat.) -/
theorem C2_idempotent_when_cached (p : SessionProcurer) (request : Request)
    (forceInsecure : Bool) (s : Session)
    (hcache : (p.procureSession request forceInsecure).cacheUpdate = some s) :
    (p.procureSession request forceInsecure).result = .ok (some s) ∧
    p.procureSession (request.setComponent (some s)) forceInsecure =
      { result := .ok (some s), trace := [], cookiesSet := [], cacheUpdate := none } :=
  ⟨procureSession_cacheUpdate_result p request forceInsecure s hcache,
    procureSession_cached p (request.setComponent (some s)) forceInsecure s rfl⟩

/-- Witness for the amended C2: the bare insecure GET request creates and
caches a session; the repeat call returns it with no store calls. -/
theorem C2_idempotent_when_cached_witness :
    ((mkSessionProcurer emptyStore).procureSession blankRequest false).result =
      .ok (some { identifier := strToBytes ("fresh") }) ∧
    (mkSessionProcurer emptyStore).procureSession
        (blankRequest.setComponent (some { identifier := strToBytes ("fresh") }))
        false =
      { result := .ok (some { identifier := strToBytes ("fresh") }), trace := [],
        cookiesSet := [], cacheUpdate := none } :=
  C2_idempotent_when_cached (mkSessionProcurer emptyStore) blankRequest false
    { identifier := strToBytes ("fresh") } rfl

/-- A secure GET request presenting an identifier via the secure token
header. -/
def secureHeaderRequest : Request :=
  { blankRequest with
    isSecure := true,
    headers := fun n =>
      if n = defaultSecureTokenHeader then [strToBytes ("abc")] else [] }

/-- Claim C3 counterexample: a header-presented identifier whose load
succeeds — but with a store-side identifier change — on a GET request with
setCookieOnGET enabled: the returned session's identifier differs from the
presented value and a Set-Cookie IS written. -/
theorem C3_counterexample :
    ((mkSessionProcurer renamingStore).procureSession secureHeaderRequest false).result =
      .ok (some { identifier := strToBytes ("changed") }) ∧
    some (strToBytes ("changed")) ≠ some (strToBytes ("abc")) ∧
    ((mkSessionProcurer renamingStore).procureSession secureHeaderRequest
      false).cookiesSet ≠ [] := by
  refine ⟨rfl, by decide, ?_⟩
  have h : ((mkSessionProcurer renamingStore).procureSession secureHeaderRequest
      false).cookiesSet =
      [{ name := defaultSecureCookie, value := strToBytes ("changed"),
         max_age := 3600, domain := none, path := defaultCookiePath,
         secure := true, httpOnly := true }] := rfl
  rw [h]
  simp

/-- Claim C3 amended: for a header-presented identifier whose load succeeds
with a session whose identifier equals the presented value, procureSession
returns that session and writes no cookie. -/
theorem C3_header_load_unchanged (p : SessionProcurer) (request : Request)
    (forceInsecure : Bool) (raw : Bytes) (sessionID : Str) (session : Session)
    (hcomp : request.component = none)
    (hh : request.getHeader (transportClassification p request forceInsecure).tokenHeader
      = some raw)
    (hd : asciiDecode raw = some sessionID)
    (hl : p.store.loadSession sessionID
      (transportClassification p request forceInsecure).sentSecurely
      SessionMechanism.Header = .ok session)
    (hid : session.identifier = sessionID) :
    (p.procureSession request forceInsecure).result = .ok (some session) ∧
    (p.procureSession request forceInsecure).cookiesSet = [] := by
  rw [procureSession_uncached p request forceInsecure hcomp,
    procureUncached_header p request forceInsecure raw hh,
    lookupPhase_load_ok p request _ _ SessionMechanism.Header raw sessionID session
      hd hl,
    issueAndCache_skip p request _ _ (some sessionID) session (Or.inl (by rw [hid]))]
  exact ⟨rfl, rfl⟩

/-- Witness for the amended C3: a store that loads the presented identifier
unchanged returns it with no cookie written. -/
theorem C3_header_load_unchanged_witness :
    ((mkSessionProcurer echoStore).procureSession secureHeaderRequest false).result =
      .ok (some { identifier := strToBytes ("abc") }) ∧
    ((mkSessionProcurer echoStore).procureSession secureHeaderRequest false).cookiesSet =
      [] :=
  C3_header_load_unchanged (mkSessionProcurer echoStore) secureHeaderRequest false
    (strToBytes ("abc")) (strToBytes ("abc")) { identifier := strToBytes ("abc") }
    rfl rfl rfl rfl rfl
